import Mathlib

/-!
Shallow embedding of `src/device_manager.py` and the relevant entry point of
`src/main.py` (repository `AIops_Network_api`), together with theorems that
settle the specification claims about device classification, connection-profile
building, connection error reporting, batch command execution, session
lifecycle, and report assembly.

Conventions of the embedding:
* Python dicts with a fixed key set become structures; a key that may be absent
  becomes an `Option` field.
* Python exceptions raised by the network backends are values of `PyExc`
  (a kind distinguishing the two Netmiko exception classes caught by name in
  the source, plus a catch-all, and the exception's `str(e)` message).
* `fastapi.HTTPException` becomes `HTTPError` (status code and detail string).
* Network I/O is an oracle `Env`: the outcome of the connection attempt and,
  for each command index, the outcome of sending the command and of parsing
  its output. The embedded functions are deterministic in the oracle.
* Calls with observable side effects (session open, command send, session
  disconnect) are recorded in an event trace returned beside the result.
* Python string `.lower()` is `Char.toLower` on each character (the
  identifiers involved are ASCII) and substring `in` is decidable `<:+:` on
  the character list.
-/

namespace DeviceManager

/-- `device_info` dict: keys `os_type`, `ip_address`, `username`, `password`,
and the optional `port` and `secret` read with `.get`. -/
structure DeviceInfo where
  os_type : String
  ip_address : String
  username : String
  password : String
  port : Option Nat
  secret : Option String
deriving Repr, DecidableEq

/-- Python `s.lower()` restricted to ASCII identifiers. -/
def pyLower (s : String) : String := String.mk (s.data.map Char.toLower)

/-- Python substring test `needle in hay`. -/
def strContains (hay needle : String) : Bool := decide (needle.data <:+: hay.data)

/-- Python truthiness of an optional string (`None` and `""` are falsy),
as used by `device_info.get('secret')`. -/
def pyTruthy : Option String → Bool
  | none => false
  | some s => !s.isEmpty

/-- The `cli` connection block of the testbed built by `create_testbed`. -/
structure CliConnection where
  protocol : String
  ip : String
  port : Nat
  username : String
  password : String
  ssh_options : String
deriving Repr, DecidableEq

/-- The `credentials` block of the testbed: a `default` username/password and
an `enable` password that is present only when added by the `secret` branch. -/
structure Credentials where
  default_username : String
  default_password : String
  enable_password : Option String
deriving Repr, DecidableEq

/-- The single device entry of the testbed dict built by `create_testbed`
(the entry is keyed by `device_info['ip_address']`). -/
structure TestbedDevice where
  key_ip : String
  type : String
  os : String
  platform : String
  cli : CliConnection
  credentials : Credentials
deriving Repr, DecidableEq

/-- `DeviceManager.create_testbed`: builds the pyATS testbed dict for the
device; port falls back to 22 via `.get('port', 22)`, and the `enable`
credential is added only when `device_info.get('secret')` is truthy. -/
def create_testbed (d : DeviceInfo) : TestbedDevice :=
  { key_ip := d.ip_address
    type := d.os_type
    os := d.os_type
    platform := d.os_type
    cli :=
      { protocol := "ssh"
        ip := d.ip_address
        port := d.port.getD 22
        username := d.username
        password := d.password
        ssh_options := "-o KexAlgorithms=diffie-hellman-group-exchange-sha1,diffie-hellman-group14-sha1 -o HostKeyAlgorithms=ssh-rsa -o Ciphers=aes128-ctr,aes192-ctr,aes256-ctr" }
    credentials :=
      { default_username := d.username
        default_password := d.password
        enable_password := if pyTruthy d.secret then d.secret else none } }

/-- The `is_huawei` check of `execute_commands`:
`any(os_type in device_info['os_type'].lower() for os_type in ['huawei', 'vrp', 'vrpv8'])`. -/
def isHuaweiOs (os_type : String) : Bool :=
  ["huawei", "vrp", "vrpv8"].any (fun needle => strContains (pyLower os_type) needle)

/-- Kind of an exception raised by a backend call: the two Netmiko exception
classes that `connect_huawei_device` catches by name, and the catch-all
`Exception` for everything else (including pyATS failures). -/
inductive ExcKind where
  | netmikoTimeout
  | netmikoAuth
  | generic
deriving Repr, DecidableEq

/-- A Python exception as observed by the handlers: its class kind and its
`str(e)` message. -/
structure PyExc where
  kind : ExcKind
  msg : String
deriving Repr, DecidableEq

/-- `fastapi.HTTPException(status_code, detail)`. -/
structure HTTPError where
  status_code : Nat
  detail : String
deriving Repr, DecidableEq

/-- `str(e)` of a `fastapi.HTTPException`: `"{status_code}: {detail}"`. -/
def httpStr (h : HTTPError) : String := toString h.status_code ++ ": " ++ h.detail

/-- The Netmiko connection parameter dict built by `connect_huawei_device`. -/
structure NetmikoParams where
  device_type : String
  host : String
  username : String
  password : String
  port : Nat
  timeout : Nat
  session_log : String
deriving Repr, DecidableEq

/-- The Huawei OS-type → Netmiko `device_type` mapping of
`connect_huawei_device`. -/
def huaweiDeviceType (os_type : String) : String :=
  let os := pyLower os_type
  if strContains os "vrpv8" then "huawei_vrpv8"
  else if strContains os "vrp" then "huawei"
  else "huawei"

/-- The `netmiko_params` dict of `connect_huawei_device`. -/
def netmikoParams (d : DeviceInfo) : NetmikoParams :=
  { device_type := huaweiDeviceType d.os_type
    host := d.ip_address
    username := d.username
    password := d.password
    port := d.port.getD 22
    timeout := 30
    session_log := "/tmp/" ++ d.ip_address ++ "-netmiko.log" }

/-- `DeviceManager.connect_huawei_device`: `ConnectHandler(**netmiko_params)`
either yields a session or raises; the three `except` clauses map the raised
exception to an `HTTPException` whose detail depends on the exception class. -/
def connect_huawei_device (d : DeviceInfo) (outcome : Option PyExc) :
    Except HTTPError NetmikoParams :=
  match outcome with
  | none => .ok (netmikoParams d)
  | some e =>
    match e.kind with
    | .netmikoTimeout =>
        .error ⟨500, "Connection timed out to device " ++ d.ip_address⟩
    | .netmikoAuth =>
        .error ⟨500, "Authentication failed for device " ++ d.ip_address⟩
    | .generic =>
        .error ⟨500, "Failed to connect to Huawei device: " ++ e.msg⟩

/-- The keyword arguments of the `device.connect(...)` call inside
`connect_to_device`. -/
structure ConnectCallArgs where
  learn_hostname : Bool
  log_stdout : Bool
deriving Repr, DecidableEq

/-- A pyATS session as observed by the embedding: the testbed it was loaded
from and the arguments of the `device.connect` call that opened it. -/
structure GenericSession where
  testbed : TestbedDevice
  connectArgs : ConnectCallArgs
deriving Repr, DecidableEq

/-- `DeviceManager.connect_to_device`: builds and loads the testbed, then
calls `device.connect(learn_hostname=True, log_stdout=True)`; any exception
is caught by the single catch-all and re-raised as one generic
`HTTPException`. -/
def connect_to_device (d : DeviceInfo) (outcome : Option PyExc) :
    Except HTTPError GenericSession :=
  match outcome with
  | none =>
      .ok { testbed := create_testbed d
            connectArgs := { learn_hostname := true, log_stdout := true } }
  | some e =>
      .error ⟨500, "Failed to connect to device: " ++ e.msg⟩

/-- Outcome oracle for one command: the result of sending it over the session
(`device.send_command` / `device.execute`) and, on the pyATS path, the result
of `device.parse`. -/
structure CmdBehavior where
  execRes : Except PyExc String
  parseRes : Except PyExc String
deriving Repr

/-- Oracle for one request: outcome of the connection attempt (`none` means
the backend call succeeded) and per-command-index behavior. -/
structure Env where
  connectOutcome : Option PyExc
  beh : Nat → CmdBehavior

/-- One entry of the `responses` list of `execute_commands`; the `Option`
fields model dict keys that are present only on some branches. -/
structure Response where
  command : String
  status : String
  output : Option String
  parsed_output : Option String
  error : Option String
deriving Repr, DecidableEq

/-- The dict returned by `execute_commands`. -/
structure Report where
  device_info : DeviceInfo
  command_responses : List Response
deriving Repr, DecidableEq

/-- Observable session side effects, recorded in order. -/
inductive Event where
  | sessionOpened
  | sendCommand (c : String)
  | disconnect
deriving Repr, DecidableEq

/-- Body of the Huawei per-command loop: `device.send_command(command)` inside
`try`, the success dict on `.ok`, the error dict in `except`. -/
def runHuaweiCommand (c : String) (b : CmdBehavior) : Response :=
  match b.execRes with
  | .ok out => { command := c, status := "success", output := some out
                 parsed_output := none, error := none }
  | .error e => { command := c, status := "error", output := none
                  parsed_output := none, error := some e.msg }

/-- Body of the pyATS per-command loop: `device.execute(command)` inside
`try`; on success a nested `try` attempts `device.parse(command)`, falling
back to the raw-output dict when parsing raises; the outer `except` produces
the error dict. -/
def runGenericCommand (c : String) (b : CmdBehavior) : Response :=
  match b.execRes with
  | .ok out =>
    match b.parseRes with
    | .ok parsed => { command := c, status := "success", output := some out
                      parsed_output := some parsed, error := none }
    | .error _ => { command := c, status := "success", output := some out
                    parsed_output := none, error := none }
  | .error e => { command := c, status := "error", output := none
                  parsed_output := none, error := some e.msg }

/-- The `for command in commands` loop of `execute_commands`, appending one
response per command; `i` is the index of the first remaining command in the
original batch. -/
def runCommandLoop (runOne : String → CmdBehavior → Response)
    (beh : Nat → CmdBehavior) : List String → Nat → List Response
  | [], _ => []
  | c :: rest, i => runOne c (beh i) :: runCommandLoop runOne beh rest (i + 1)

/-- `DeviceManager.execute_commands`: classifies the device, connects with the
matching backend, runs the per-command loop, disconnects, and returns the
report; the outer catch-all turns any raised `HTTPException` into a new 500.
Returns the event trace of the session beside the result. -/
def execute_commands (env : Env) (d : DeviceInfo) (commands : List String) :
    List Event × Except HTTPError Report :=
  if isHuaweiOs d.os_type then
    match connect_huawei_device d env.connectOutcome with
    | .error h =>
        ([], .error ⟨500, "Error executing commands: " ++ httpStr h⟩)
    | .ok _ =>
        let responses := runCommandLoop runHuaweiCommand env.beh commands 0
        (Event.sessionOpened :: commands.map Event.sendCommand ++ [Event.disconnect],
         .ok { device_info := d, command_responses := responses })
  else
    match connect_to_device d env.connectOutcome with
    | .error h =>
        ([], .error ⟨500, "Error executing commands: " ++ httpStr h⟩)
    | .ok _ =>
        let responses := runCommandLoop runGenericCommand env.beh commands 0
        (Event.sessionOpened :: commands.map Event.sendCommand ++ [Event.disconnect],
         .ok { device_info := d, command_responses := responses })

/-- One entry of `inspection_commands`. -/
structure CommandSpec where
  command : String
deriving Repr, DecidableEq

/-- The `device_data` dict consumed by `process_device_data`. -/
structure DeviceData where
  device_info : DeviceInfo
  inspection_commands : List CommandSpec
deriving Repr, DecidableEq

/-- `DeviceManager.process_device_data`: extracts `device_info` and the
command texts and delegates to `execute_commands`; its catch-all intercepts
any raised `HTTPException` and re-raises it as a 400. -/
def process_device_data (env : Env) (dd : DeviceData) :
    List Event × Except HTTPError Report :=
  let r := execute_commands env dd.device_info
    (dd.inspection_commands.map (fun c => c.command))
  match r.2 with
  | .ok rep => (r.1, .ok rep)
  | .error h => (r.1, .error ⟨400, "Invalid device data format: " ++ httpStr h⟩)

/-- The `/execute/huawei/commands` endpoint of `src/main.py`: rejects an
`os_type` outside the Huawei list before any connection attempt, otherwise
delegates to `process_device_data`; its catch-all re-wraps any raised
`HTTPException` (including its own 400) as a 500. -/
def execute_huawei_commands (env : Env) (dd : DeviceData) :
    List Event × Except HTTPError Report :=
  if (pyLower dd.device_info.os_type) ∈ (["huawei", "vrp", "vrpv8"] : List String) then
    match process_device_data env dd with
    | (tr, .ok rep) => (tr, .ok rep)
    | (tr, .error h) =>
        (tr, .error ⟨500, "Error processing Huawei device data: " ++ httpStr h⟩)
  else
    ([], .error ⟨500, "Error processing Huawei device data: " ++
      httpStr ⟨400, "Invalid OS type for Huawei device. Use 'huawei', 'vrp', or 'vrpv8'"⟩⟩)

/-! ### Helper lemmas about the command loop -/

theorem runCommandLoop_map_command (runOne : String → CmdBehavior → Response)
    (h : ∀ c b, (runOne c b).command = c) (beh : Nat → CmdBehavior)
    (cmds : List String) (i : Nat) :
    (runCommandLoop runOne beh cmds i).map (fun r => r.command) = cmds := by
  induction cmds generalizing i with
  | nil => simp [runCommandLoop]
  | cons c rest ih => simp [runCommandLoop, h, ih]

theorem runCommandLoop_length (runOne : String → CmdBehavior → Response)
    (beh : Nat → CmdBehavior) (cmds : List String) (i : Nat) :
    (runCommandLoop runOne beh cmds i).length = cmds.length := by
  induction cmds generalizing i with
  | nil => rfl
  | cons c rest ih => simp [runCommandLoop, ih]

theorem runCommandLoop_getElem (runOne : String → CmdBehavior → Response)
    (beh : Nat → CmdBehavior) (cmds : List String) (i j : Nat) :
    (runCommandLoop runOne beh cmds i)[j]? =
      cmds[j]?.map (fun c => runOne c (beh (i + j))) := by
  induction cmds generalizing i j with
  | nil => simp [runCommandLoop]
  | cons c rest ih =>
    cases j with
    | zero => simp [runCommandLoop]
    | succ j' =>
      have harith : i + 1 + j' = i + (j' + 1) := by omega
      simpa [runCommandLoop, harith] using ih (i + 1) j'

theorem runHuaweiCommand_command (c : String) (b : CmdBehavior) :
    (runHuaweiCommand c b).command = c := by
  cases hb : b.execRes <;> simp [runHuaweiCommand, hb]

theorem runGenericCommand_command (c : String) (b : CmdBehavior) :
    (runGenericCommand c b).command = c := by
  cases hb : b.execRes with
  | error e => simp [runGenericCommand, hb]
  | ok out => cases hp : b.parseRes <;> simp [runGenericCommand, hb, hp]

/-! ### Concrete inputs used by witnesses and counterexamples -/

def dIos : DeviceInfo :=
  { os_type := "ios", ip_address := "10.0.0.1", username := "admin"
    password := "x", port := none, secret := none }

def dHuawei : DeviceInfo :=
  { os_type := "vrpv8", ip_address := "10.0.0.99", username := "admin"
    password := "pw", port := some 22, secret := some "sec" }

def behOk : Nat → CmdBehavior :=
  fun _ => { execRes := .ok "raw output", parseRes := .ok "parsed output" }

def envOk : Env := { connectOutcome := none, beh := behOk }

def excTimeout : PyExc := { kind := ExcKind.netmikoTimeout, msg := "timed-out" }

def envFail : Env := { connectOutcome := some excTimeout, beh := behOk }

def behMidFail : Nat → CmdBehavior :=
  fun i =>
    if i == 1 then
      { execRes := .error { kind := ExcKind.generic, msg := "bad command" }
        parseRes := .error { kind := ExcKind.generic, msg := "no parser" } }
    else behOk i

def envMidFail : Env := { connectOutcome := none, beh := behMidFail }

def envParseFail : Env :=
  { connectOutcome := none
    beh := fun _ =>
      { execRes := .ok "raw output"
        parseRes := .error { kind := ExcKind.generic, msg := "parser failed" } } }

def ddHuawei : DeviceData :=
  { device_info := dHuawei
    inspection_commands := [{ command := "display version" }] }

/-- On a successful connection, `execute_commands` runs the family-specific
loop over the whole batch and wraps the responses in a report. -/
theorem execute_commands_ok (env : Env) (d : DeviceInfo) (commands : List String)
    (h : env.connectOutcome = none) :
    execute_commands env d commands =
      (Event.sessionOpened :: (commands.map Event.sendCommand ++ [Event.disconnect]),
       Except.ok
         { device_info := d
           command_responses := runCommandLoop
             (if isHuaweiOs d.os_type then runHuaweiCommand else runGenericCommand)
             env.beh commands 0 }) := by
  cases hh : isHuaweiOs d.os_type <;>
    simp [execute_commands, hh, h, connect_huawei_device, connect_to_device]

/-- On a failed connection attempt, `execute_commands` raises and produces no
session events at all. -/
theorem execute_commands_fail (env : Env) (d : DeviceInfo) (commands : List String)
    (e : PyExc) (h : env.connectOutcome = some e) :
    (execute_commands env d commands).1 = [] ∧
    ∃ herr : HTTPError, (execute_commands env d commands).2 = .error herr ∧
      herr.status_code = 500 := by
  cases hh : isHuaweiOs d.os_type with
  | true =>
    cases hk : e.kind <;>
      simp [execute_commands, hh, h, connect_huawei_device, hk]
  | false =>
    simp [execute_commands, hh, h, connect_to_device]

theorem runEither_command (hw : Bool) (c : String) (b : CmdBehavior) :
    ((if hw then runHuaweiCommand else runGenericCommand) c b).command = c := by
  cases hw with
  | true => simpa using runHuaweiCommand_command c b
  | false => simpa using runGenericCommand_command c b

/-! ### Claim theorems -/

/-- C1: for every device descriptor and every list of N commands, when the
connection succeeds `execute_commands` returns a report whose command-response
sequence has exactly N entries, one per submitted command, in exactly the
input order: the list of per-response command texts equals the input list. -/
theorem execute_commands_preserves_order (env : Env) (d : DeviceInfo)
    (commands : List String) (h : env.connectOutcome = none) :
    ∃ r : Report, (execute_commands env d commands).2 = .ok r ∧
      r.command_responses.map (fun resp => resp.command) = commands ∧
      r.command_responses.length = commands.length := by
  rw [execute_commands_ok env d commands h]
  exact ⟨_, rfl,
    runCommandLoop_map_command _ (runEither_command (isHuaweiOs d.os_type)) _ _ _,
    runCommandLoop_length _ _ _ _⟩

/-- Witness for C1: a two-command batch on a Cisco-style descriptor. -/
theorem execute_commands_preserves_order_witness :
    ∃ r : Report,
      (execute_commands envOk dIos ["show version", "show bogus-command"]).2 = .ok r ∧
      r.command_responses.map (fun resp => resp.command) =
        ["show version", "show bogus-command"] ∧
      r.command_responses.length = ["show version", "show bogus-command"].length :=
  execute_commands_preserves_order envOk dIos ["show version", "show bogus-command"] rfl

/-- C2: a failure while executing command i is recorded as an error entry for
that command only and execution proceeds through the whole batch (the result
list still has one entry per command); the outcome recorded at any position j
depends only on the behavior of the command at j, so it is unaffected by what
any other command did. -/
theorem command_failure_isolated (env₁ env₂ : Env) (d : DeviceInfo)
    (commands : List String) (j : Nat)
    (h₁ : env₁.connectOutcome = none) (h₂ : env₂.connectOutcome = none)
    (hj : env₁.beh j = env₂.beh j) :
    ∃ r₁ r₂ : Report,
      (execute_commands env₁ d commands).2 = .ok r₁ ∧
      (execute_commands env₂ d commands).2 = .ok r₂ ∧
      r₁.command_responses.length = commands.length ∧
      r₁.command_responses[j]? = r₂.command_responses[j]? ∧
      (∀ e : PyExc, (env₁.beh j).execRes = .error e →
        r₁.command_responses[j]? = commands[j]?.map (fun c =>
          { command := c, status := "error", output := none
            parsed_output := none, error := some e.msg })) := by
  rw [execute_commands_ok env₁ d commands h₁, execute_commands_ok env₂ d commands h₂]
  refine ⟨_, _, rfl, rfl, runCommandLoop_length _ _ _ _, ?_, ?_⟩
  · rw [runCommandLoop_getElem, runCommandLoop_getElem]
    simp [hj]
  · intro e he
    rw [runCommandLoop_getElem]
    simp only [Nat.zero_add]
    cases hh : isHuaweiOs d.os_type <;>
      simp [runHuaweiCommand, runGenericCommand, he]

/-- Witness for C2: a batch whose second command fails; the failure is
recorded as the error entry at position 1 while the batch keeps both
entries. -/
theorem command_failure_isolated_witness :
    ∃ r₁ r₂ : Report,
      (execute_commands envMidFail dIos ["show version", "show bogus-command"]).2 = .ok r₁ ∧
      (execute_commands envMidFail dIos ["show version", "show bogus-command"]).2 = .ok r₂ ∧
      r₁.command_responses.length = ["show version", "show bogus-command"].length ∧
      r₁.command_responses[1]? = r₂.command_responses[1]? ∧
      (∀ e : PyExc, (envMidFail.beh 1).execRes = .error e →
        r₁.command_responses[1]? = ["show version", "show bogus-command"][1]?.map (fun c =>
          { command := c, status := "error", output := none
            parsed_output := none, error := some e.msg })) :=
  command_failure_isolated envMidFail envMidFail dIos
    ["show version", "show bogus-command"] 1 rfl rfl rfl

theorem count_trace_sendCommands (a : Event)
    (h : ∀ c : String, a ≠ Event.sendCommand c) (commands : List String) :
    (commands.map Event.sendCommand).count a = 0 := by
  rw [List.count_eq_zero]
  intro hmem
  obtain ⟨c, _, hc⟩ := List.mem_map.mp hmem
  exact h c hc.symm

/-- C3: for every run, the session is opened at most once and `disconnect` is
called exactly as many times as a session was opened — exactly once whenever
the connection succeeded (on every exit path the environment can produce,
including per-command failures anywhere in the batch) and never when no
session was opened. -/
theorem disconnect_exactly_once (env : Env) (d : DeviceInfo)
    (commands : List String) :
    ((execute_commands env d commands).1.count Event.disconnect =
      (execute_commands env d commands).1.count Event.sessionOpened) ∧
    (env.connectOutcome = none →
      (execute_commands env d commands).1.count Event.disconnect = 1) ∧
    (∀ e : PyExc, env.connectOutcome = some e →
      (execute_commands env d commands).1.count Event.disconnect = 0) := by
  have hd : (commands.map Event.sendCommand).count Event.disconnect = 0 :=
    count_trace_sendCommands Event.disconnect (by simp) commands
  have hs : (commands.map Event.sendCommand).count Event.sessionOpened = 0 :=
    count_trace_sendCommands Event.sessionOpened (by simp) commands
  refine ⟨?_, ?_, ?_⟩
  · cases hc : env.connectOutcome with
    | none =>
      rw [execute_commands_ok env d commands hc]
      simp [List.count_cons, List.count_append, beq_iff_eq, hd, hs]
    | some e =>
      rw [(execute_commands_fail env d commands e hc).1]
      simp
  · intro hc
    rw [execute_commands_ok env d commands hc]
    simp [List.count_cons, List.count_append, beq_iff_eq, hd]
  · intro e hc
    rw [(execute_commands_fail env d commands e hc).1]
    simp

/-- Witness for C3: one disconnect on a successful connection with a
mid-batch command failure, none on a failed connection. -/
theorem disconnect_exactly_once_witness :
    ((execute_commands envMidFail dHuawei ["display version"]).1.count Event.disconnect = 1) ∧
    ((execute_commands envFail dHuawei ["display version"]).1.count Event.disconnect = 0) :=
  ⟨(disconnect_exactly_once envMidFail dHuawei ["display version"]).2.1 rfl,
   (disconnect_exactly_once envFail dHuawei ["display version"]).2.2 excTimeout rfl⟩

/-- C4: when the connection attempt fails, the whole request fails: no
session event is ever produced (in particular zero commands are sent and no
partial report exists), the result is an error, and for a Huawei device whose
connection raised the Netmiko timeout (the backend's connect timeout is the
fixed 30 seconds of `netmiko_params`) the error carries the timeout detail. -/
theorem connection_failure_whole_request (env : Env) (d : DeviceInfo)
    (commands : List String) (e : PyExc) (h : env.connectOutcome = some e) :
    (execute_commands env d commands).1 = [] ∧
    (∃ herr : HTTPError, (execute_commands env d commands).2 = .error herr ∧
      herr.status_code = 500) ∧
    (netmikoParams d).timeout = 30 ∧
    (isHuaweiOs d.os_type = true → e.kind = ExcKind.netmikoTimeout →
      (execute_commands env d commands).2 = .error ⟨500, "Error executing commands: " ++
        httpStr ⟨500, "Connection timed out to device " ++ d.ip_address⟩⟩) ∧
    (∀ dd : DeviceData,
      pyLower dd.device_info.os_type ∉ (["huawei", "vrp", "vrpv8"] : List String) →
      (execute_huawei_commands env dd).1 = [] ∧
      ∃ herr : HTTPError, (execute_huawei_commands env dd).2 = .error herr) := by
  refine ⟨(execute_commands_fail env d commands e h).1,
    (execute_commands_fail env d commands e h).2, rfl, ?_, ?_⟩
  · intro hh hk
    simp [execute_commands, hh, h, connect_huawei_device, hk]
  · intro dd hdd
    simp [execute_huawei_commands, hdd]

/-- Witness for C4: unreachable Huawei host, timeout on connect, one command
submitted, empty trace and a timeout error. -/
theorem connection_failure_whole_request_witness :
    (execute_commands envFail dHuawei ["display version"]).1 = [] ∧
    (execute_commands envFail dHuawei ["display version"]).2 = .error ⟨500,
      "Error executing commands: " ++
        httpStr ⟨500, "Connection timed out to device " ++ dHuawei.ip_address⟩⟩ :=
  ⟨(connection_failure_whole_request envFail dHuawei ["display version"] excTimeout rfl).1,
   (connection_failure_whole_request envFail dHuawei ["display version"] excTimeout rfl).2.2.2.1
     (by decide) rfl⟩

theorem cons_append_ne (c₁ c₂ : Char) (t₁ t₂ s₁ s₂ : List Char) (hne : ¬ c₁ = c₂) :
    ¬ ((c₁ :: t₁) ++ s₁ = (c₂ :: t₂) ++ s₂) := by
  intro h
  simp [List.cons_append] at h
  exact hne h.1

theorem string_head_ne (p q a b : String) (c₁ c₂ : Char) (t₁ t₂ : List Char)
    (hp : p.data = c₁ :: t₁) (hq : q.data = c₂ :: t₂) (hne : ¬ c₁ = c₂) :
    ¬ (p ++ a = q ++ b) := by
  intro h
  have hd := congrArg String.data h
  rw [String.data_append, String.data_append, hp, hq] at hd
  exact cons_append_ne c₁ c₂ t₁ t₂ a.data b.data hne hd

/-- C5 counterexample: in the Generic (pyATS) family the single catch-all of
`connect_to_device` does not distinguish causes — a timeout-class failure and
a generic transport failure with the same exception message produce the very
same error, although they are different causes. -/
theorem generic_connect_collapses_causes :
    connect_to_device dIos (some { kind := ExcKind.netmikoTimeout, msg := "boom" }) =
      connect_to_device dIos (some { kind := ExcKind.generic, msg := "boom" }) ∧
    ExcKind.netmikoTimeout ≠ ExcKind.generic :=
  ⟨rfl, by decide⟩

/-- C5 (amended): only the Huawei-family connect distinguishes timeout,
authentication failure, and generic transport failure as three separate
causes — its error determines the exception kind — while the Generic family's
catch-all collapses all causes into one generic message. -/
theorem huawei_connect_distinguishes_causes (d : DeviceInfo) (e₁ e₂ : PyExc)
    (h : connect_huawei_device d (some e₁) = connect_huawei_device d (some e₂)) :
    e₁.kind = e₂.kind := by
  cases hk₁ : e₁.kind <;> cases hk₂ : e₂.kind <;>
    simp [connect_huawei_device, hk₁, hk₂, HTTPError.mk.injEq] at h ⊢ <;>
  · first
    | rfl
    | exact absurd h (string_head_ne _ _ _ _ _ _ _ _ rfl rfl (by decide))

/-- Witness for C5 (amended): two identical timeout failures yield the same
kind. -/
theorem huawei_connect_distinguishes_causes_witness :
    excTimeout.kind = excTimeout.kind :=
  huawei_connect_distinguishes_causes dHuawei excTimeout excTimeout rfl

/-- A needle occurs in the lowercased haystack exactly when some substring of
the haystack lowercases to the needle. -/
theorem infix_map_toLower_iff (needle : List Char) (s : String) :
    needle <:+: (pyLower s).data ↔
      ∃ t : List Char, t <:+: s.data ∧ t.map Char.toLower = needle := by
  constructor
  · rintro ⟨a, b, hab⟩
    have hmap : s.data.map Char.toLower = (a ++ needle) ++ b := hab.symm
    obtain ⟨l₁, l₂, hs, hl₁, hl₂⟩ := List.map_eq_append_iff.mp hmap
    obtain ⟨l₁₁, l₁₂, hl₁s, hl₁₁, hl₁₂⟩ := List.map_eq_append_iff.mp hl₁
    refine ⟨l₁₂, ⟨l₁₁, l₂, ?_⟩, hl₁₂⟩
    rw [hs, hl₁s, List.append_assoc]
  · rintro ⟨t, hinf, hmap⟩
    have : t.map Char.toLower <:+: s.data.map Char.toLower := hinf.map Char.toLower
    rw [hmap] at this
    exact this

/-- C6: vendor-family classification is a deterministic, case-insensitive
substring match: `isHuaweiOs` holds exactly when some substring of the
platform identifier lowercases to "huawei", "vrp", or "vrpv8"; in particular
"VRPV8" and "vrpv8" resolve to the same (Huawei) family. -/
theorem classify_case_insensitive_substring :
    (∀ os : String, isHuaweiOs os = true ↔
      ∃ t : List Char, t <:+: os.data ∧
        (t.map Char.toLower = "huawei".data ∨ t.map Char.toLower = "vrp".data ∨
         t.map Char.toLower = "vrpv8".data)) ∧
    isHuaweiOs "VRPV8" = isHuaweiOs "vrpv8" ∧ isHuaweiOs "VRPV8" = true := by
  refine ⟨?_, by decide, by decide⟩
  intro os
  unfold isHuaweiOs strContains
  simp only [List.any_cons, List.any_nil, Bool.or_false, Bool.or_eq_true,
    decide_eq_true_eq]
  constructor
  · rintro (h | h | h)
    · obtain ⟨t, ht, hm⟩ := (infix_map_toLower_iff _ os).mp h
      exact ⟨t, ht, Or.inl hm⟩
    · obtain ⟨t, ht, hm⟩ := (infix_map_toLower_iff _ os).mp h
      exact ⟨t, ht, Or.inr (Or.inl hm)⟩
    · obtain ⟨t, ht, hm⟩ := (infix_map_toLower_iff _ os).mp h
      exact ⟨t, ht, Or.inr (Or.inr hm)⟩
  · rintro ⟨t, ht, hm | hm | hm⟩
    · exact Or.inl ((infix_map_toLower_iff _ os).mpr ⟨t, ht, hm⟩)
    · exact Or.inr (Or.inl ((infix_map_toLower_iff _ os).mpr ⟨t, ht, hm⟩))
    · exact Or.inr (Or.inr ((infix_map_toLower_iff _ os).mpr ⟨t, ht, hm⟩))

theorem isEmpty_false_of_ne (s : String) (h : ¬ s = "") : s.isEmpty = false := by
  rw [Bool.eq_false_iff]
  intro hb
  exact h ((String.isEmpty_iff s).mp hb)

/-- Witness for C6: the characterization instantiated at the mixed-case
identifier "Huawei-VRP". -/
theorem classify_case_insensitive_substring_witness :
    isHuaweiOs "Huawei-VRP" = true ↔
      ∃ t : List Char, t <:+: "Huawei-VRP".data ∧
        (t.map Char.toLower = "huawei".data ∨ t.map Char.toLower = "vrp".data ∨
         t.map Char.toLower = "vrpv8".data) :=
  classify_case_insensitive_substring.1 "Huawei-VRP"

/-- C7: the connection profile built by `create_testbed` uses port 22 when the
descriptor gives no port, and the enable credential is present iff the
descriptor supplies a non-empty secret — never as an empty string. -/
theorem testbed_port_and_secret (d : DeviceInfo) :
    (d.port = none → (create_testbed d).cli.port = 22) ∧
    ((create_testbed d).credentials.enable_password ≠ some "") ∧
    ((create_testbed d).credentials.enable_password.isSome ↔
      ∃ s : String, d.secret = some s ∧ s ≠ "") ∧
    (∀ s : String, d.secret = some s → s ≠ "" →
      (create_testbed d).credentials.enable_password = some s) := by
  refine ⟨?_, ?_, ?_, ?_⟩
  · intro h
    simp [create_testbed, h]
  · cases hs : d.secret with
    | none => simp [create_testbed, pyTruthy, hs]
    | some s =>
      by_cases he : s = ""
      · simp [create_testbed, pyTruthy, hs, he]
        decide
      · simp [create_testbed, pyTruthy, hs, he, isEmpty_false_of_ne s he]
  · cases hs : d.secret with
    | none => simp [create_testbed, pyTruthy, hs]
    | some s =>
      by_cases he : s = ""
      · simp [create_testbed, pyTruthy, hs, he]
        decide
      · simp [create_testbed, pyTruthy, hs, he, isEmpty_false_of_ne s he]
  · intro s hs he
    simp [create_testbed, pyTruthy, hs, isEmpty_false_of_ne s he]

/-- Witness for C7: a descriptor without port gets port 22; a descriptor with
a non-empty secret gets that secret as the enable credential. -/
theorem testbed_port_and_secret_witness :
    (create_testbed dIos).cli.port = 22 ∧
    (create_testbed dHuawei).credentials.enable_password = some "sec" :=
  ⟨(testbed_port_and_secret dIos).1 rfl,
   (testbed_port_and_secret dHuawei).2.2.2 "sec" rfl (by decide)⟩

theorem runHuaweiCommand_parsed (c : String) (b : CmdBehavior) :
    (runHuaweiCommand c b).parsed_output = none := by
  cases hb : b.execRes <;> simp [runHuaweiCommand, hb]

theorem runCommandLoop_huawei_no_parse (beh : Nat → CmdBehavior)
    (cmds : List String) (i : Nat) :
    ∀ resp ∈ runCommandLoop runHuaweiCommand beh cmds i,
      resp.parsed_output = none := by
  induction cmds generalizing i with
  | nil =>
    intro r h
    simp [runCommandLoop] at h
  | cons c rest ih =>
    intro r h
    simp only [runCommandLoop, List.mem_cons] at h
    rcases h with h | h
    · rw [h]
      exact runHuaweiCommand_parsed c (beh i)
    · exact ih (i + 1) r h

/-- C8: for a Generic-family execution, if a command's output fails to parse,
the entry for that command is still a success with the raw output only (the
structured-output field is absent), the batch completes in full; and the
Huawei family never gets a structured-output field at all. -/
theorem parse_failure_nonfatal (env : Env) (d : DeviceInfo)
    (commands : List String) (j : Nat) (out : String) (e : PyExc)
    (hconn : env.connectOutcome = none) :
    (isHuaweiOs d.os_type = false →
      (env.beh j).execRes = .ok out → (env.beh j).parseRes = .error e →
      ∃ r : Report, (execute_commands env d commands).2 = .ok r ∧
        r.command_responses.length = commands.length ∧
        r.command_responses[j]? = commands[j]?.map (fun c =>
          { command := c, status := "success", output := some out
            parsed_output := none, error := none })) ∧
    (isHuaweiOs d.os_type = true →
      ∃ r : Report, (execute_commands env d commands).2 = .ok r ∧
        ∀ resp ∈ r.command_responses, resp.parsed_output = none) := by
  constructor
  · intro hh hexec hparse
    rw [execute_commands_ok env d commands hconn]
    refine ⟨_, rfl, runCommandLoop_length _ _ _ _, ?_⟩
    rw [runCommandLoop_getElem]
    simp [hh, runGenericCommand, hexec, hparse]
  · intro hh
    rw [execute_commands_ok env d commands hconn]
    refine ⟨_, rfl, ?_⟩
    simp only [hh, if_true]
    exact runCommandLoop_huawei_no_parse env.beh commands 0

/-- Witness for C8: one Generic-family command whose output parses
unsuccessfully still comes back as a raw-output success. -/
theorem parse_failure_nonfatal_witness :
    ∃ r : Report, (execute_commands envParseFail dIos ["show version"]).2 = .ok r ∧
      r.command_responses.length = ["show version"].length ∧
      r.command_responses[0]? = ["show version"][0]?.map (fun c =>
        { command := c, status := "success", output := some "raw output"
          parsed_output := none, error := none }) :=
  (parse_failure_nonfatal envParseFail dIos ["show version"] 0 "raw output"
    { kind := ExcKind.generic, msg := "parser failed" } rfl).1 (by decide) rfl rfl

/-- C9 counterexample: opening a Generic-family session at a concrete
descriptor calls `device.connect` with `log_stdout=True` — the transcript is
echoed to standard output even though the caller requested nothing. -/
theorem generic_connect_echoes_transcript :
    connect_to_device dIos none =
      .ok { testbed := create_testbed dIos
            connectArgs := { learn_hostname := true, log_stdout := true } } := rfl

/-- C9 (amended): for every Generic-family connection the opened session's
transcript IS echoed to standard output: `connect_to_device` always invokes
`device.connect` with `log_stdout=True` (and `learn_hostname=True`), and it
exposes no caller option to change this. -/
theorem generic_connect_always_logs_stdout (d : DeviceInfo) (s : GenericSession)
    (h : connect_to_device d none = .ok s) :
    s.connectArgs.log_stdout = true ∧ s.connectArgs.learn_hostname = true := by
  have hs : ({ testbed := create_testbed d
               connectArgs := { learn_hostname := true, log_stdout := true } }
      : GenericSession) = s := by
    simpa [connect_to_device] using h
  rw [← hs]
  exact ⟨rfl, rfl⟩

/-- Witness for C9 (amended) at a concrete descriptor. -/
theorem generic_connect_always_logs_stdout_witness :
    ({ testbed := create_testbed dIos
       connectArgs := { learn_hostname := true, log_stdout := true } }
      : GenericSession).connectArgs.log_stdout = true ∧
    ({ testbed := create_testbed dIos
       connectArgs := { learn_hostname := true, log_stdout := true } }
      : GenericSession).connectArgs.learn_hostname = true :=
  generic_connect_always_logs_stdout dIos _ rfl

theorem execute_commands_device_info (env : Env) (d : DeviceInfo)
    (commands : List String) (rep : Report)
    (h : (execute_commands env d commands).2 = .ok rep) :
    rep.device_info = d := by
  cases hc : env.connectOutcome with
  | none =>
    rw [execute_commands_ok env d commands hc] at h
    simp only [Except.ok.injEq] at h
    rw [← h]
  | some e =>
    obtain ⟨herr, he, _⟩ := (execute_commands_fail env d commands e hc).2
    rw [he] at h
    simp at h

/-- C10: every successful run of the pipeline embeds the input device
descriptor verbatim under `device_info` in the returned report — plaintext
password and secret included — so the request credentials are echoed back to
the caller. -/
theorem report_embeds_descriptor (env : Env) (dd : DeviceData) (r : Report)
    (h : (process_device_data env dd).2 = .ok r) :
    r.device_info = dd.device_info ∧
    r.device_info.password = dd.device_info.password ∧
    r.device_info.secret = dd.device_info.secret := by
  simp only [process_device_data] at h
  cases hc : (execute_commands env dd.device_info
      (dd.inspection_commands.map (fun c => c.command))).2 with
  | ok rep =>
    rw [hc] at h
    simp only [Except.ok.injEq] at h
    have hd := execute_commands_device_info env dd.device_info
      (dd.inspection_commands.map (fun c => c.command)) rep hc
    rw [← h, hd]
    exact ⟨rfl, rfl, rfl⟩
  | error herr =>
    rw [hc] at h
    simp at h

/-- Witness for C10: a successful Huawei run echoes the descriptor — password
`"pw"` and secret `"sec"` included — inside the report. -/
theorem report_embeds_descriptor_witness :
    ({ device_info := dHuawei
       command_responses := [{ command := "display version", status := "success"
                               output := some "raw output", parsed_output := none
                               error := none }] } : Report).device_info = dHuawei ∧
    ({ device_info := dHuawei
       command_responses := [{ command := "display version", status := "success"
                               output := some "raw output", parsed_output := none
                               error := none }] } : Report).device_info.password =
      dHuawei.password ∧
    ({ device_info := dHuawei
       command_responses := [{ command := "display version", status := "success"
                               output := some "raw output", parsed_output := none
                               error := none }] } : Report).device_info.secret =
      dHuawei.secret :=
  report_embeds_descriptor envOk ddHuawei _ rfl

end DeviceManager
